import Mathlib

/-!
Verification of the host-classification / transport-routing layer and the
FFI error-handling conventions of the pubky client SDK.

Strings are embedded as lists of characters (`Str`), so that the list
lemmas of the standard library apply directly.  Rust `Option`/`Result`
become `Option`/`Except`; external collaborators (the network, the URL
parser) enter as explicit parameters.
-/

set_option autoImplicit false

/-- Hostnames and textual payloads are embedded as lists of characters. -/
abbrev Str := List Char

/-- Modelled from the spec: the canonical lowercase base-32 (z-base-32)
alphabet of the public-key string encoding; `PublicKey::try_from_z32` is
not under `src/`.  The sample keys in the source doc comments are written
in this alphabet. -/
def z32Alphabet : Str := "ybndrfg8ejkmcpqxot1uwisza345h769".toList

/-- Modelled from the spec: `PublicKey::try_from_z32(s)` succeeds exactly
when `s` is a canonical raw-key string — the spec says decode fails on
wrong length or invalid alphabet, and the source tests name 52 characters
as the valid length.  `isValidZ32 s` is the success condition of that
parse. -/
def isValidZ32 (s : Str) : Bool :=
  s.length == 52 && s.all (fun c => z32Alphabet.contains c)

/-- The literal marker of the prefixed display form (`pubky<z32>`). -/
def pubkyMarker : Str := ['p', 'u', 'b', 'k', 'y']

/-- The reserved transport-host label `_pubky.` (marker plus literal dot). -/
def reservedMarker : Str := ['_', 'p', 'u', 'b', 'k', 'y', '.']

/-- Embeds Rust `str::strip_prefix`: `stripPre p s = some r` when
`s = p ++ r`, and `none` when `p` is not a prefix of `s`. -/
def stripPre : Str → Str → Option Str
  | [], s => some s
  | _ :: _, [] => none
  | p :: ps, c :: cs => if p = c then stripPre ps cs else none

/-- Modelled from the spec: `PublicKey::is_pubky_prefixed(s)` holds when
`s` is in prefixed display form, i.e. the literal `pubky` marker followed
by a key string (the function itself is not under `src/`). -/
def is_pubky_prefixed (s : Str) : Bool :=
  match stripPre pubkyMarker s with
  | some r => isValidZ32 r
  | none => false

/-- The host kinds of `classify_host` (native.rs).  The spec names them
`ResolvedKey` / `ConventionalHost` / `RawKey` for
`ResolvedPubky` / `Icann` / `Pubky` respectively. -/
inductive HostKind where
  | ResolvedPubky
  | Icann
  | Pubky
  deriving DecidableEq

/-- Embeds `classify_host` (native.rs lines 13-25): a host with the
reserved `_pubky.` label is Icann if the remainder is pubky-prefixed,
ResolvedPubky if the remainder parses as a raw key, and falls through to
Pubky otherwise; a host without the label is Icann if pubky-prefixed or
unparsable as a raw key, else Pubky. -/
def classify_host (host : Str) : HostKind :=
  match stripPre reservedMarker host with
  | some pk_host =>
    if is_pubky_prefixed pk_host then HostKind.Icann
    else if isValidZ32 pk_host then HostKind.ResolvedPubky
    else HostKind.Pubky
  | none =>
    if is_pubky_prefixed host || !isValidZ32 host then HostKind.Icann
    else HostKind.Pubky

/-- The only error constructed by `prepare_request`:
`RequestError::Validation { message }`. -/
inductive RequestError where
  | validation (message : Str)
  deriving DecidableEq

/-- A parsed URL as `prepare_request`/`request` see it: the raw text and
the host component extracted by the external `url` crate
(`Url::host_str()`, `none` when the URL has no host). -/
structure Url where
  raw : Str
  host : Option Str
  deriving DecidableEq

/-- `url.host_str().unwrap_or("")`. -/
def hostOf (u : Url) : Str :=
  match u.host with
  | some h => h
  | none => []

/-- The host after stripping the reserved `_pubky.` label when present. -/
def strippedHostOf (u : Url) : Str :=
  match stripPre reservedMarker (hostOf u) with
  | some r => r
  | none => hostOf u

/-- The validation message of `prepare_request`. -/
def validationMessage : Str :=
  "pubky prefix is not allowed in transport hosts; use raw z32".toList

/-- Embeds `prepare_request` (native.rs lines 67-95): rejects a
pubky-prefixed (after stripping `_pubky.` when present) host with a
Validation error, returns the host as the raw-key token when it parses
as a raw key, and `none` otherwise. -/
def prepare_request (u : Url) : Except RequestError (Option Str) :=
  let host := hostOf u
  match stripPre reservedMarker host with
  | some stripped =>
    if is_pubky_prefixed stripped then
      Except.error (RequestError.validation validationMessage)
    else if isValidZ32 stripped then Except.ok (some stripped)
    else Except.ok none
  | none =>
    if is_pubky_prefixed host then
      Except.error (RequestError.validation validationMessage)
    else if isValidZ32 host then Except.ok (some host)
    else Except.ok none

/-- An HTTP method, opaque to the router (reqwest `Method`). -/
structure Method where
  name : Str
  deriving DecidableEq

/-- The two long-lived transport engines of `PubkyHttpClient`:
`http` is the key-pinned (pubky TLS) engine, `icannHttp` the CA-verified
one (`self.icann_http`). -/
inductive Engine where
  | http
  | icannHttp
  deriving DecidableEq

/-- What `PubkyHttpClient::request` hands to an engine: the chosen engine
together with the untouched method and URL string. -/
structure RoutedRequest where
  engine : Engine
  method : Method
  url : Str
  deriving DecidableEq

/-- Embeds `request` (native.rs lines 111-149): classify the parsed host;
ResolvedPubky and (by fall-through) Pubky go to the key-pinned engine,
Icann to the CA-verified engine, and a URL with no parsable host also
falls through to the key-pinned engine.  Method and URL string pass
through unmodified. -/
def request (m : Method) (u : Url) : RoutedRequest :=
  match u.host with
  | some host =>
    match classify_host host with
    | HostKind.ResolvedPubky => ⟨Engine.http, m, u.raw⟩
    | HostKind.Icann => ⟨Engine.icannHttp, m, u.raw⟩
    | HostKind.Pubky => ⟨Engine.http, m, u.raw⟩
  | none => ⟨Engine.http, m, u.raw⟩

-- Concrete hosts used by the claims.

/-- A canonical raw-key string (52 alphabet characters). -/
def sampleKey : Str := List.replicate 52 'y'

def hostExampleCom : Str := "example.com".toList

def hostEmpty : Str := []

def hostLocalhost : Str := "localhost".toList

def hostLoopback : Str := "127.0.0.1".toList

def hostInvalidWord : Str := "invalid".toList

def hostReservedInvalid : Str := "_pubky.invalid".toList

def hostReservedBare : Str := "_pubky.".toList

def urlPubkyInvalid : Url := ⟨"https://_pubky.invalid/".toList, some hostReservedInvalid⟩

def urlExample : Url := ⟨"https://example.com/".toList, some hostExampleCom⟩

def methodGet : Method := ⟨"GET".toList⟩

-- The FFI boundary (bindings/ffi).  A raw handle pointer is embedded as
-- `Ptr`: null, live (pointing at an owned allocation), or dangling
-- (non-null but already freed).  Dereferencing a dangling pointer has no
-- defined result, which `FfiRet.undefined` records.

/-- A raw handle pointer crossing the FFI boundary. -/
inductive Ptr (α : Type) where
  | null
  | live (val : α)
  | dangling
  deriving DecidableEq

/-- Outcome of one FFI call: either a returned value, or undefined
behavior (the call dereferenced freed memory, which the source's safety
contract forbids but does not check). -/
inductive FfiRet (α : Type) where
  | ret (val : α)
  | undefined
  deriving DecidableEq

/-- Whether the call produced any defined result at all. -/
def FfiRet.isDefined {α : Type} : FfiRet α → Bool
  | FfiRet.ret _ => true
  | FfiRet.undefined => false

/-- Opaque payload of an `FfiSession` handle (`pubky::PubkySession`). -/
structure Session where
  tag : Nat
  deriving DecidableEq

/-- Opaque payload of an `FfiSessionStorage` handle. -/
structure SessionStorage where
  tag : Nat
  deriving DecidableEq

/-- Embeds `FfiResult` (error.rs): result data, error message, and the
numeric code (0 for success).  The builder for the source's associated
function `FfiResult::error` is named `mkError` because `error` is already
the field name. -/
structure FfiResult where
  data : Option Str
  error : Option Str
  code : Int
  deriving DecidableEq

/-- `FfiResult::success(data)`. -/
def FfiResult.success (d : Str) : FfiResult := ⟨some d, none, 0⟩

/-- `FfiResult::success_empty()`. -/
def FfiResult.success_empty : FfiResult := ⟨none, none, 0⟩

/-- `FfiResult::error(message, code)`. -/
def FfiResult.mkError (msg : Str) (code : Int) : FfiResult := ⟨none, some msg, code⟩

/-- The variants of `pubky::Error`, each carrying its display string. -/
inductive PubkyError where
  | request (msg : Str)
  | pkarr (msg : Str)
  | parse (msg : Str)
  | authentication (msg : Str)
  | build (msg : Str)
  deriving DecidableEq

/-- Embeds `FfiResult::from_pubky_error` (error.rs lines 52-61):
Request→1, Pkarr→2, Parse→3, Authentication→4, Build→5. -/
def from_pubky_error (e : PubkyError) : FfiResult :=
  match e with
  | PubkyError.request m => FfiResult.mkError m 1
  | PubkyError.pkarr m => FfiResult.mkError m 2
  | PubkyError.parse m => FfiResult.mkError m 3
  | PubkyError.authentication m => FfiResult.mkError m 4
  | PubkyError.build m => FfiResult.mkError m 5

def nullSessionMessage : Str := "Null session pointer".toList

def nullStorageMessage : Str := "Null storage pointer".toList

def invalidPathMessage : Str := "Invalid path".toList

def validText : Str := "valid".toList

def invalidText : Str := "invalid".toList

/-- Embeds `pubky_session_storage_get_text` (storage.rs lines 22-44):
null storage pointer → error code -1; null/invalid path string → error
code -1 (both before the storage pointer is dereferenced); otherwise the
storage is dereferenced (undefined on a freed pointer) and the outcome of
the external get+text network call (`remote`) is converted. -/
def pubky_session_storage_get_text (storage : Ptr SessionStorage)
    (path : Option Str) (remote : Except PubkyError Str) : FfiRet FfiResult :=
  match storage with
  | Ptr.null => FfiRet.ret (FfiResult.mkError nullStorageMessage (-1))
  | Ptr.live _ =>
    match path with
    | none => FfiRet.ret (FfiResult.mkError invalidPathMessage (-1))
    | some _ =>
      match remote with
      | Except.ok text => FfiRet.ret (FfiResult.success text)
      | Except.error e => FfiRet.ret (from_pubky_error e)
  | Ptr.dangling =>
    match path with
    | none => FfiRet.ret (FfiResult.mkError invalidPathMessage (-1))
    | some _ => FfiRet.undefined

/-- Embeds `pubky_session_signout` (session.rs lines 71-84): a null
pointer → error code -1; otherwise `Box::from_raw` takes ownership, the
inner session is moved into the external signout call (`remote`), and the
box — hence the caller's allocation — is freed either way, so the
caller's pointer is dangling after the call (second component). -/
def pubky_session_signout (session : Ptr Session)
    (remote : Except PubkyError Unit) : FfiRet (FfiResult × Ptr Session) :=
  match session with
  | Ptr.null => FfiRet.ret (FfiResult.mkError nullSessionMessage (-1), Ptr.null)
  | Ptr.live _ =>
    match remote with
    | Except.ok _ => FfiRet.ret (FfiResult.success_empty, Ptr.dangling)
    | Except.error e => FfiRet.ret (from_pubky_error e, Ptr.dangling)
  | Ptr.dangling => FfiRet.undefined

/-- Embeds `pubky_session_revalidate` (session.rs lines 92-104): a null
pointer → error code -1; a live session is borrowed and the external
revalidate outcome (`remote`) is converted ("valid" / "invalid" /
error); a dangling pointer is dereferenced with no defined result. -/
def pubky_session_revalidate (session : Ptr Session)
    (remote : Except PubkyError (Option Unit)) : FfiRet FfiResult :=
  match session with
  | Ptr.null => FfiRet.ret (FfiResult.mkError nullSessionMessage (-1))
  | Ptr.live _ =>
    match remote with
    | Except.ok (some _) => FfiRet.ret (FfiResult.success validText)
    | Except.ok none => FfiRet.ret (FfiResult.success invalidText)
    | Except.error e => FfiRet.ret (from_pubky_error e)
  | Ptr.dangling => FfiRet.undefined

/-- The exported functions of the bindings/ffi crate that take a keypair,
public-key, signer, session, or storage handle pointer (session.rs,
keypair.rs, signer.rs, storage.rs, pubky.rs). -/
inductive HandleFn where
  | sessionPublicKey
  | sessionCapabilities
  | sessionStorage
  | sessionSignout
  | sessionRevalidate
  | sessionFree
  | keypairSecretKey
  | keypairPublicKey
  | keypairCreateRecoveryFile
  | keypairFree
  | publicKeyZ32
  | publicKeyBytes
  | publicKeyFree
  | signerPublicKey
  | signerSignup
  | signerSignupWithResult
  | signerSignin
  | signerSigninWithResult
  | signerSigninBlocking
  | signerFree
  | sessionStorageGetText
  | sessionStorageGetBytes
  | sessionStorageGetJson
  | sessionStoragePutText
  | sessionStoragePutBytes
  | sessionStoragePutJson
  | sessionStorageDelete
  | sessionStorageExists
  | sessionStorageList
  | sessionStorageFree
  | publicStorageGetText
  | publicStorageGetBytes
  | publicStorageGetJson
  | publicStorageExists
  | publicStorageList
  | publicStorageFree
  | pubkySigner
  | pubkyGetHomeserverOf
  deriving DecidableEq

/-- What an exported FFI function does when its handle pointer is null. -/
inductive NullHandleBehavior where
  | errorCode (code : Int)
  | nullPointer
  | noopReturn
  | dereferences
  deriving DecidableEq

/-- The null-handle branch of each exported handle-taking function, read
off the `is_null` check that opens its body: result-returning functions
answer an error result with code -1, pointer-returning functions answer a
null pointer, and the `*_free` destructors return with no effect.  (The
`dereferences` outcome would record a function with no such check; none
of them maps to it.) -/
def onNullHandle : HandleFn → NullHandleBehavior
  | HandleFn.sessionPublicKey => NullHandleBehavior.nullPointer
  | HandleFn.sessionCapabilities => NullHandleBehavior.errorCode (-1)
  | HandleFn.sessionStorage => NullHandleBehavior.nullPointer
  | HandleFn.sessionSignout => NullHandleBehavior.errorCode (-1)
  | HandleFn.sessionRevalidate => NullHandleBehavior.errorCode (-1)
  | HandleFn.sessionFree => NullHandleBehavior.noopReturn
  | HandleFn.keypairSecretKey => NullHandleBehavior.errorCode (-1)
  | HandleFn.keypairPublicKey => NullHandleBehavior.nullPointer
  | HandleFn.keypairCreateRecoveryFile => NullHandleBehavior.errorCode (-1)
  | HandleFn.keypairFree => NullHandleBehavior.noopReturn
  | HandleFn.publicKeyZ32 => NullHandleBehavior.errorCode (-1)
  | HandleFn.publicKeyBytes => NullHandleBehavior.errorCode (-1)
  | HandleFn.publicKeyFree => NullHandleBehavior.noopReturn
  | HandleFn.signerPublicKey => NullHandleBehavior.nullPointer
  | HandleFn.signerSignup => NullHandleBehavior.nullPointer
  | HandleFn.signerSignupWithResult => NullHandleBehavior.errorCode (-1)
  | HandleFn.signerSignin => NullHandleBehavior.nullPointer
  | HandleFn.signerSigninWithResult => NullHandleBehavior.errorCode (-1)
  | HandleFn.signerSigninBlocking => NullHandleBehavior.nullPointer
  | HandleFn.signerFree => NullHandleBehavior.noopReturn
  | HandleFn.sessionStorageGetText => NullHandleBehavior.errorCode (-1)
  | HandleFn.sessionStorageGetBytes => NullHandleBehavior.errorCode (-1)
  | HandleFn.sessionStorageGetJson => NullHandleBehavior.errorCode (-1)
  | HandleFn.sessionStoragePutText => NullHandleBehavior.errorCode (-1)
  | HandleFn.sessionStoragePutBytes => NullHandleBehavior.errorCode (-1)
  | HandleFn.sessionStoragePutJson => NullHandleBehavior.errorCode (-1)
  | HandleFn.sessionStorageDelete => NullHandleBehavior.errorCode (-1)
  | HandleFn.sessionStorageExists => NullHandleBehavior.errorCode (-1)
  | HandleFn.sessionStorageList => NullHandleBehavior.errorCode (-1)
  | HandleFn.sessionStorageFree => NullHandleBehavior.noopReturn
  | HandleFn.publicStorageGetText => NullHandleBehavior.errorCode (-1)
  | HandleFn.publicStorageGetBytes => NullHandleBehavior.errorCode (-1)
  | HandleFn.publicStorageGetJson => NullHandleBehavior.errorCode (-1)
  | HandleFn.publicStorageExists => NullHandleBehavior.errorCode (-1)
  | HandleFn.publicStorageList => NullHandleBehavior.errorCode (-1)
  | HandleFn.publicStorageFree => NullHandleBehavior.noopReturn
  | HandleFn.pubkySigner => NullHandleBehavior.nullPointer
  | HandleFn.pubkyGetHomeserverOf => NullHandleBehavior.errorCode (-1)

/-- A concrete session payload. -/
def sessionSample : Session := ⟨0⟩

def samplePath : Str := "/pub/app/note.txt".toList

def sampleText : Str := "hello".toList

def sampleMessage : Str := "parse failure".toList

-- Basic lemmas about the embedding.

theorem stripPre_self_append (p s : Str) : stripPre p (p ++ s) = some s := by
  induction p with
  | nil => rfl
  | cons a as ih => simp [stripPre, ih]

theorem stripPre_cons_ne {p c : Char} {ps cs : Str} (h : p ≠ c) :
    stripPre (p :: ps) (c :: cs) = none := by
  simp [stripPre, h]

theorem stripPre_length {p s r : Str} (h : stripPre p s = some r) :
    s.length = p.length + r.length := by
  induction p generalizing s with
  | nil =>
    simp [stripPre] at h
    simp [h]
  | cons a as ih =>
    cases s with
    | nil => simp [stripPre] at h
    | cons c cs =>
      by_cases hac : a = c
      · simp [stripPre, hac] at h
        have := ih h
        simp [List.length_cons, this]
        omega
      · simp [stripPre, hac] at h

theorem isValidZ32_length {s : Str} (h : isValidZ32 s = true) : s.length = 52 := by
  simp [isValidZ32] at h
  exact h.1

theorem is_pubky_prefixed_append (k : Str) :
    is_pubky_prefixed (pubkyMarker ++ k) = isValidZ32 k := by
  simp [is_pubky_prefixed, stripPre_self_append]

theorem is_pubky_prefixed_of_valid {s : Str} (h : isValidZ32 s = true) :
    is_pubky_prefixed s = false := by
  unfold is_pubky_prefixed
  cases hs : stripPre pubkyMarker s with
  | none => rfl
  | some r =>
    have hl := stripPre_length hs
    have h52 := isValidZ32_length h
    have hr : r.length = 47 := by
      have hm : pubkyMarker.length = 5 := rfl
      omega
    simp [isValidZ32, hr]

theorem stripPre_reserved_of_marker (k : Str) :
    stripPre reservedMarker (pubkyMarker ++ k) = none := by
  have e1 : reservedMarker = '_' :: ['p', 'u', 'b', 'k', 'y', '.'] := rfl
  have e2 : pubkyMarker ++ k = 'p' :: (['u', 'b', 'k', 'y'] ++ k) := rfl
  rw [e1, e2]
  exact stripPre_cons_ne (by decide)

-- Claim theorems: host classification and request preparation.

/-- C1: `prepare_request` fails with a Validation error if and only if the
URL's host, after stripping the reserved `_pubky.` label when present, is
in prefixed display form; on every other URL it does not return a
Validation error. -/
theorem prepare_request_validation_iff (u : Url) :
    (∃ m, prepare_request u = Except.error (RequestError.validation m)) ↔
      is_pubky_prefixed (strippedHostOf u) = true := by
  cases hs : stripPre reservedMarker (hostOf u) with
  | some stripped =>
    by_cases hp : is_pubky_prefixed stripped = true
    · simp [prepare_request, strippedHostOf, hs, hp]
    · simp only [Bool.not_eq_true] at hp
      by_cases hv : isValidZ32 stripped = true <;>
        simp [prepare_request, strippedHostOf, hs, hp, hv]
  | none =>
    by_cases hp : is_pubky_prefixed (hostOf u) = true
    · simp [prepare_request, strippedHostOf, hs, hp]
    · simp only [Bool.not_eq_true] at hp
      by_cases hv : isValidZ32 (hostOf u) = true <;>
        simp [prepare_request, strippedHostOf, hs, hp, hv]

/-- C2: the prefixed display form of any valid key classifies as Icann
(ConventionalHost), both bare and behind the reserved `_pubky.` label, so
a prefixed-form host is never classified ResolvedPubky or Pubky. -/
theorem classify_host_prefixed_form (k : Str) (h : isValidZ32 k = true) :
    classify_host (pubkyMarker ++ k) = HostKind.Icann ∧
    classify_host (reservedMarker ++ (pubkyMarker ++ k)) = HostKind.Icann := by
  have hpre : is_pubky_prefixed (pubkyMarker ++ k) = true := by
    rw [is_pubky_prefixed_append]
    exact h
  constructor
  · unfold classify_host
    rw [stripPre_reserved_of_marker]
    simp [hpre]
  · unfold classify_host
    rw [stripPre_self_append]
    simp [hpre]

/-- C2 witness: the prefixed form of a concrete valid key classifies as
Icann in both host positions. -/
theorem classify_host_prefixed_form_witness :
    classify_host (pubkyMarker ++ sampleKey) = HostKind.Icann ∧
    classify_host (reservedMarker ++ (pubkyMarker ++ sampleKey)) = HostKind.Icann :=
  classify_host_prefixed_form sampleKey (by decide)

/-- C3: a host consisting of the reserved `_pubky.` label followed by the
canonical encoding of a valid key classifies as ResolvedPubky
(ResolvedKey). -/
theorem classify_host_reserved_resolved (k : Str) (h : isValidZ32 k = true) :
    classify_host (reservedMarker ++ k) = HostKind.ResolvedPubky := by
  unfold classify_host
  rw [stripPre_self_append]
  simp [is_pubky_prefixed_of_valid h, h]

/-- C3 witness: a concrete reserved-prefix raw-key host classifies as
ResolvedPubky. -/
theorem classify_host_reserved_resolved_witness :
    classify_host (reservedMarker ++ sampleKey) = HostKind.ResolvedPubky :=
  classify_host_reserved_resolved sampleKey (by decide)

/-- C4: a host without the reserved `_pubky.` label classifies as Icann
when it is pubky-prefixed or fails to parse as a raw key (in particular
`example.com`, the empty host, `localhost` and `127.0.0.1`), and as Pubky
(RawKey) otherwise. -/
theorem classify_host_no_reserved (h : Str)
    (hnp : stripPre reservedMarker h = none) :
    ((is_pubky_prefixed h = true ∨ isValidZ32 h = false) →
      classify_host h = HostKind.Icann) ∧
    (is_pubky_prefixed h = false → isValidZ32 h = true →
      classify_host h = HostKind.Pubky) ∧
    classify_host hostExampleCom = HostKind.Icann ∧
    classify_host hostEmpty = HostKind.Icann ∧
    classify_host hostLocalhost = HostKind.Icann ∧
    classify_host hostLoopback = HostKind.Icann := by
  refine ⟨?_, ?_, by decide, by decide, by decide, by decide⟩
  · intro hc
    unfold classify_host
    rw [hnp]
    rcases hc with hc | hc <;> simp [hc]
  · intro h1 h2
    unfold classify_host
    rw [hnp]
    simp [h1, h2]

/-- C4 witness: instantiated at the raw-key host `sampleKey`, whose
classification is Pubky. -/
theorem classify_host_no_reserved_witness :
    ((is_pubky_prefixed sampleKey = true ∨ isValidZ32 sampleKey = false) →
      classify_host sampleKey = HostKind.Icann) ∧
    (is_pubky_prefixed sampleKey = false → isValidZ32 sampleKey = true →
      classify_host sampleKey = HostKind.Pubky) ∧
    classify_host hostExampleCom = HostKind.Icann ∧
    classify_host hostEmpty = HostKind.Icann ∧
    classify_host hostLocalhost = HostKind.Icann ∧
    classify_host hostLoopback = HostKind.Icann :=
  classify_host_no_reserved sampleKey (by decide)

/-- C5: a reserved-prefix host whose remainder is neither in prefixed
display form nor a valid raw-key string classifies as Pubky (the RawKey
fallback), in particular `_pubky.invalid` and `_pubky.`. -/
theorem classify_host_reserved_fallback (r : Str)
    (h1 : is_pubky_prefixed r = false) (h2 : isValidZ32 r = false) :
    classify_host (reservedMarker ++ r) = HostKind.Pubky ∧
    classify_host hostReservedInvalid = HostKind.Pubky ∧
    classify_host hostReservedBare = HostKind.Pubky := by
  refine ⟨?_, by decide, by decide⟩
  unfold classify_host
  rw [stripPre_self_append]
  simp [h1, h2]

/-- C5 witness: instantiated at the remainder `invalid`. -/
theorem classify_host_reserved_fallback_witness :
    classify_host (reservedMarker ++ hostInvalidWord) = HostKind.Pubky ∧
    classify_host hostReservedInvalid = HostKind.Pubky ∧
    classify_host hostReservedBare = HostKind.Pubky :=
  classify_host_reserved_fallback hostInvalidWord (by decide) (by decide)

/-- C6 counterexample: for the URL with host `_pubky.invalid`,
`classify_host` yields Pubky (RawKey) yet `prepare_request` returns no
token, so the claimed equivalence between "Some token" and "classifies as
RawKey or ResolvedKey" is false. -/
theorem prepare_request_token_mismatch :
    ¬ ((∃ t, prepare_request urlPubkyInvalid = Except.ok (some t)) ↔
        (classify_host (hostOf urlPubkyInvalid) = HostKind.Pubky ∨
         classify_host (hostOf urlPubkyInvalid) = HostKind.ResolvedPubky)) := by
  intro hiff
  have h1 : classify_host (hostOf urlPubkyInvalid) = HostKind.Pubky := by decide
  obtain ⟨t, ht⟩ := hiff.mpr (Or.inl h1)
  have h2 : prepare_request urlPubkyInvalid = Except.ok none := rfl
  rw [h2] at ht
  simp at ht

/-- C6 (amended): on URLs where `prepare_request` does not fail it returns
Some raw-key token exactly when the host classifies as ResolvedPubky, or
classifies as Pubky without carrying the reserved `_pubky.` label; for a
reserved-prefix host with an invalid remainder (classify's RawKey
fallback) it returns none. -/
theorem prepare_request_token_characterization (u : Url) :
    (∃ t, prepare_request u = Except.ok (some t)) ↔
      (classify_host (hostOf u) = HostKind.ResolvedPubky ∨
       (classify_host (hostOf u) = HostKind.Pubky ∧
        stripPre reservedMarker (hostOf u) = none)) := by
  cases hs : stripPre reservedMarker (hostOf u) with
  | some stripped =>
    by_cases hp : is_pubky_prefixed stripped = true
    · simp [prepare_request, classify_host, hs, hp]
    · simp only [Bool.not_eq_true] at hp
      by_cases hv : isValidZ32 stripped = true <;>
        simp [prepare_request, classify_host, hs, hp, hv]
  | none =>
    by_cases hp : is_pubky_prefixed (hostOf u) = true
    · simp [prepare_request, classify_host, hs, hp]
    · simp only [Bool.not_eq_true] at hp
      by_cases hv : isValidZ32 (hostOf u) = true <;>
        simp [prepare_request, classify_host, hs, hp, hv]

/-- C7: for every method and every URL whose host parses, `request` hands
the method and the untouched URL string to the key-pinned engine when the
host classifies as ResolvedPubky or Pubky and to the CA-verified engine
when it classifies as Icann, and the engine choice depends only on the
classification of the host. -/
theorem request_engine_selection (m : Method) (u : Url) (h : Str)
    (hh : u.host = some h) :
    ((classify_host h = HostKind.ResolvedPubky ∨ classify_host h = HostKind.Pubky) →
      request m u = ⟨Engine.http, m, u.raw⟩) ∧
    (classify_host h = HostKind.Icann →
      request m u = ⟨Engine.icannHttp, m, u.raw⟩) ∧
    (∀ m2 u2 h2, u2.host = some h2 → classify_host h2 = classify_host h →
      (request m2 u2).engine = (request m u).engine) := by
  refine ⟨?_, ?_, ?_⟩
  · intro hc
    rcases hc with hc | hc <;> simp [request, hh, hc]
  · intro hc
    simp [request, hh, hc]
  · intro m2 u2 h2 hh2 hcc
    simp only [request, hh, hh2, hcc]
    cases classify_host h <;> rfl

/-- C7 witness: a conventional host routes to the CA-verified engine with
method and URL untouched. -/
theorem request_engine_selection_witness :
    request methodGet urlExample = ⟨Engine.icannHttp, methodGet, urlExample.raw⟩ :=
  (request_engine_selection methodGet urlExample hostExampleCom rfl).2.1 (by decide)

-- Claim theorems: FFI error codes and handle lifecycle.

/-- Consistency of the null-handle table with the concrete model of
`pubky_session_storage_get_text`. -/
theorem onNullHandle_get_text_consistent (path : Option Str)
    (remote : Except PubkyError Str) :
    onNullHandle HandleFn.sessionStorageGetText = NullHandleBehavior.errorCode (-1) ∧
    pubky_session_storage_get_text Ptr.null path remote =
      FfiRet.ret (FfiResult.mkError nullStorageMessage (-1)) :=
  ⟨rfl, rfl⟩

/-- Consistency of the null-handle table with the concrete models of
`pubky_session_signout` and `pubky_session_revalidate`. -/
theorem onNullHandle_session_consistent (r1 : Except PubkyError Unit)
    (r2 : Except PubkyError (Option Unit)) :
    onNullHandle HandleFn.sessionSignout = NullHandleBehavior.errorCode (-1) ∧
    pubky_session_signout Ptr.null r1 =
      FfiRet.ret (FfiResult.mkError nullSessionMessage (-1), Ptr.null) ∧
    onNullHandle HandleFn.sessionRevalidate = NullHandleBehavior.errorCode (-1) ∧
    pubky_session_revalidate Ptr.null r2 =
      FfiRet.ret (FfiResult.mkError nullSessionMessage (-1)) :=
  ⟨rfl, rfl, rfl, rfl⟩

/-- C8 counterexample: `pubky_session_storage_get_text` on a null storage
handle fails with an error message and code -1, which lies outside the
claimed closed enumeration {1, 2, 3, 4, 5, 6}. -/
theorem ffi_null_failure_code_outside_enumeration :
    pubky_session_storage_get_text Ptr.null (some samplePath) (Except.ok sampleText) =
      FfiRet.ret (FfiResult.mkError nullStorageMessage (-1)) ∧
    (FfiResult.mkError nullStorageMessage (-1)).error.isSome = true ∧
    ((FfiResult.mkError nullStorageMessage (-1)).code ∈ ([1, 2, 3, 4, 5, 6] : List Int) →
      False) :=
  ⟨rfl, rfl, by decide⟩

/-- C8 (amended): failures converted from SDK errors carry one code from
the closed enumeration {1, 2, 3, 4, 5} (Request=1, Pkarr=2, Parse=3,
Authentication=4, Build=5; no error maps to 6), and every failure outcome
of `pubky_session_storage_get_text` carries a code from
{-1, 1, 2, 3, 4, 5}, where -1 marks a null-pointer or invalid-argument
failure detected at the boundary. -/
theorem ffi_failure_codes (e : PubkyError) (st : Ptr SessionStorage)
    (path : Option Str) (remote : Except PubkyError Str) (r : FfiResult)
    (hret : pubky_session_storage_get_text st path remote = FfiRet.ret r)
    (hfail : r.error.isSome = true) :
    (from_pubky_error e).code ∈ ([1, 2, 3, 4, 5] : List Int) ∧
    r.code ∈ ([-1, 1, 2, 3, 4, 5] : List Int) := by
  constructor
  · cases e <;> simp [from_pubky_error, FfiResult.mkError]
  · cases st with
    | null =>
      simp [pubky_session_storage_get_text] at hret
      simp [← hret, FfiResult.mkError]
    | live v =>
      cases path with
      | none =>
        simp [pubky_session_storage_get_text] at hret
        simp [← hret, FfiResult.mkError]
      | some p =>
        cases remote with
        | ok text =>
          simp [pubky_session_storage_get_text] at hret
          rw [← hret] at hfail
          simp [FfiResult.success] at hfail
        | error e2 =>
          simp [pubky_session_storage_get_text] at hret
          cases e2 <;> simp [← hret, from_pubky_error, FfiResult.mkError]
    | dangling =>
      cases path with
      | none =>
        simp [pubky_session_storage_get_text] at hret
        simp [← hret, FfiResult.mkError]
      | some p =>
        simp [pubky_session_storage_get_text] at hret

/-- C8 witness: the amended bound instantiated at a Parse error and at
the null-storage failure of `pubky_session_storage_get_text`. -/
theorem ffi_failure_codes_witness :
    (from_pubky_error (PubkyError.parse sampleMessage)).code ∈ ([1, 2, 3, 4, 5] : List Int) ∧
    (FfiResult.mkError nullStorageMessage (-1)).code ∈ ([-1, 1, 2, 3, 4, 5] : List Int) :=
  ffi_failure_codes (PubkyError.parse sampleMessage) Ptr.null (some samplePath)
    (Except.ok sampleText) (FfiResult.mkError nullStorageMessage (-1)) rfl rfl

/-- C9 counterexample: signing out a live session handle consumes and
frees it (the caller's pointer dangles), and a subsequent revalidate on
that stale non-null handle has no defined result at all — it is not
rejected with a defined error. -/
theorem pubky_session_revalidate_after_signout_undefined :
    pubky_session_signout (Ptr.live sessionSample) (Except.ok ()) =
      FfiRet.ret (FfiResult.success_empty, Ptr.dangling) ∧
    pubky_session_revalidate Ptr.dangling (Except.ok (some ())) = FfiRet.undefined ∧
    (pubky_session_revalidate Ptr.dangling (Except.ok (some ()))).isDefined = false :=
  ⟨rfl, rfl, rfl⟩

/-- C9 (amended): `pubky_session_signout` consumes the session handle —
it takes ownership and frees the allocation, so the handle is terminal —
and a null handle is rejected with the defined error code -1; but the
code does not poison the handle: a subsequent operation on the stale
non-null pointer dereferences freed memory (excluded only by the
documented safety contract) instead of being rejected with a defined
error. -/
theorem pubky_session_signout_consumes (s : Session)
    (remote : Except PubkyError Unit) :
    (∃ r, pubky_session_signout (Ptr.live s) remote = FfiRet.ret (r, Ptr.dangling)) ∧
    (∀ rm, pubky_session_revalidate Ptr.null rm =
      FfiRet.ret (FfiResult.mkError nullSessionMessage (-1))) ∧
    (∀ rm, pubky_session_revalidate Ptr.dangling rm = FfiRet.undefined) := by
  refine ⟨?_, fun rm => rfl, fun rm => rfl⟩
  cases remote with
  | ok u => exact ⟨FfiResult.success_empty, rfl⟩
  | error e => exact ⟨from_pubky_error e, rfl⟩

/-- C10 counterexample: `pubky_session_free` on a null handle returns
with no effect — it yields neither an error result with code -1 nor a
null pointer, so the claim as stated fails on it. -/
theorem null_free_not_failure_value :
    ¬ (onNullHandle HandleFn.sessionFree = NullHandleBehavior.errorCode (-1) ∨
       onNullHandle HandleFn.sessionFree = NullHandleBehavior.nullPointer) := by
  decide

/-- C10 (amended): every exported bindings/ffi function taking a keypair,
public-key, signer, session, or storage handle checks the pointer for
null before dereferencing it; on null, value-returning functions answer
an error result with code -1, pointer-returning functions answer a null
pointer, and the `*_free` destructors return as a defined no-op — none of
them dereferences the null pointer. -/
theorem null_handle_never_dereferenced (f : HandleFn) :
    (onNullHandle f = NullHandleBehavior.errorCode (-1) ∨
     onNullHandle f = NullHandleBehavior.nullPointer ∨
     onNullHandle f = NullHandleBehavior.noopReturn) ∧
    onNullHandle f ≠ NullHandleBehavior.dereferences := by
  cases f <;> decide
